import Mathlib

/-!
Verification of the X11-forwarding subsystem (`x11.go`, package `ssh`).

Bytes are modelled as natural numbers (values < 256 in every run of the real
program), buffers as `List Nat`.  Go's fixed-width unsigned arithmetic is
modelled with explicit reduction modulo 2^16 / 2^32.  A Go run-time panic
(out-of-range slice index or write) is modelled as a distinguished failure
value, separate from an ordinary returned error.
-/

namespace X11

/-- Go `uint16` arithmetic: reduction modulo 2^16. -/
def u16 (n : Nat) : Nat := n % 65536

/-- Go `uint32` arithmetic: reduction modulo 2^32. -/
def u32 (n : Nat) : Nat := n % 4294967296

/-- Byte pair written by `binary.BigEndian.PutUint16` for a `uint16` value. -/
def be16 (v : Nat) : List Nat := [v / 256 % 256, v % 256]

/-- Byte pair written by `binary.LittleEndian.PutUint16` for a `uint16` value. -/
def le16 (v : Nat) : List Nat := [v % 256, v / 256 % 256]

/-- Go `copy(buf[pos:], src)`: overwrites `buf` starting at `pos` with as many
bytes of `src` as fit; the buffer keeps its length.  (Callers must separately
check `pos ≤ buf.length`, since `buf[pos:]` itself panics otherwise.) -/
def copyAt (buf : List Nat) (pos : Nat) (src : List Nat) : List Nat :=
  buf.take pos ++ src.take (buf.length - pos) ++ buf.drop (pos + src.length)

/-- Go `binary.XxxEndian.PutUint16(buf[pos:], v)` where `two` is the byte pair
for `v`: panics (`none`) unless two bytes fit at `pos`. -/
def put2At (buf : List Nat) (pos : Nat) (two : List Nat) : Option (List Nat) :=
  if pos + 2 ≤ buf.length then some (copyAt buf pos two) else none

/-- Go `copy(buf[pos:], src)` including the panic of the slice expression
`buf[pos:]` when `pos` exceeds the buffer length. -/
def copyCkd (buf : List Nat) (pos : Nat) (src : List Nat) : Option (List Nat) :=
  if pos ≤ buf.length then some (copyAt buf pos src) else none

/-- Value of one hexadecimal digit character, as in Go `encoding/hex`
(`0-9`, `a-f`, `A-F`). -/
def hexDigitVal (c : Nat) : Option Nat :=
  if 48 ≤ c ∧ c ≤ 57 then some (c - 48)
  else if 97 ≤ c ∧ c ≤ 102 then some (c - 87)
  else if 65 ≤ c ∧ c ≤ 70 then some (c - 55)
  else none

/-- Go `hex.DecodeString`: fails on an odd-length input or a non-hex digit,
otherwise turns each pair of hex digits into one byte. -/
def hexDecode : List Nat → Option (List Nat)
  | [] => some []
  | [_] => none
  | a :: b :: rest =>
    (hexDigitVal a).bind fun hi =>
    (hexDigitVal b).bind fun lo =>
    (hexDecode rest).bind fun tail =>
    some ((hi * 16 + lo) :: tail)

/-- Go `strconv.Itoa` for a non-negative value: ASCII codes of the decimal
digits. -/
def decStr (n : Nat) : List Nat := (Nat.toDigits 10 n).map Char.toNat

/-- Buffer construction of `prepareXAuthority` (x11.go:69-105), after the hex
decode and hostname resolution have succeeded.  `le` is the result of
`isLittleEndian()`; `family = syscall.AF_LOCAL = 1` on the non-Windows hosts
this file builds for.  All four field lengths, the buffer size and the running
write position are Go `uint16` values, hence the `u16` reductions; `none`
models a run-time panic from a write or slice past the end of the buffer. -/
def prepareXAuthorityBytes (le : Bool) (hostname number name data : List Nat) :
    Option (List Nat) :=
  let addrLen := u16 hostname.length
  let numberLen := u16 number.length
  let nameLen := u16 name.length
  let dataLen := u16 data.length
  let buf0 := List.replicate (u16 (addrLen + numberLen + nameLen + dataLen + 10)) 0
  (put2At buf0 0 (if le then le16 1 else be16 1)).bind fun buf1 =>
  (put2At buf1 2 (be16 addrLen)).bind fun buf2 =>
  (copyCkd buf2 4 hostname).bind fun buf3 =>
  let p4 := u16 (4 + addrLen)
  (put2At buf3 p4 (be16 numberLen)).bind fun buf4 =>
  let p5 := u16 (p4 + 2)
  (copyCkd buf4 p5 number).bind fun buf5 =>
  let p6 := u16 (p5 + numberLen)
  (put2At buf5 p6 (be16 nameLen)).bind fun buf6 =>
  let p7 := u16 (p6 + 2)
  (copyCkd buf6 p7 name).bind fun buf7 =>
  let p8 := u16 (p7 + nameLen)
  (put2At buf7 p8 (be16 dataLen)).bind fun buf8 =>
  let p9 := u16 (p8 + 2)
  copyCkd buf8 p9 data

/-- Outcome of `prepareXAuthority`: an ordinary returned error, a run-time
panic, or the finished buffer. -/
inductive PrepResult where
  | err
  | panic
  | ok (buf : List Nat)
deriving DecidableEq

/-- Go `prepareXAuthority(request, seat)` (x11.go:58-106): hex-decodes the
request's auth data (error on bad hex), resolves the host name (modelled as an
`Option` input, error when unavailable), then builds the record buffer. -/
def prepareXAuthority (le : Bool) (hostname? : Option (List Nat))
    (authProtocol authDataHex : List Nat) (seat : Nat) : PrepResult :=
  match hexDecode authDataHex with
  | none => .err
  | some data =>
    match hostname? with
    | none => .err
    | some hostname =>
      match prepareXAuthorityBytes le hostname (decStr seat) authProtocol data with
      | none => .panic
      | some buf => .ok buf

/-- Result of one of the primitive payload parsers: ordinary failure
(`ok == false` in Go), a run-time panic, or a decoded value plus the
remaining buffer. -/
inductive ParseRes (α : Type) where
  | fail
  | panic
  | ok (v : α) (rest : List Nat)
deriving DecidableEq

/-- Go `parseString` (x11.go bottom): reads a 4-byte big-endian length prefix,
checks `uint32(len(in)) < 4+length` — where `4+length` is computed in `uint32`
and can wrap — then slices `in[4 : 4+length]`, which panics when the wrapped
bound `4+length` is below 4 (or past the end of the buffer). -/
def parseString (s : List Nat) : ParseRes (List Nat) :=
  match s with
  | a :: b :: c :: d :: rest =>
    let len32 := ((a * 256 + b) * 256 + c) * 256 + d
    let hi := u32 (4 + len32)
    if u32 (4 + rest.length) < hi then .fail
    else if 4 ≤ hi ∧ hi ≤ 4 + rest.length then
      .ok (rest.take (hi - 4)) (rest.drop (hi - 4))
    else .panic
  | _ => .fail

/-- Go `parseUint32`: reads 4 big-endian bytes, fails on a shorter buffer. -/
def parseUint32 (s : List Nat) : ParseRes Nat :=
  match s with
  | a :: b :: c :: d :: rest => .ok (((a * 256 + b) * 256 + c) * 256 + d) rest
  | _ => .fail

/-- Go `parseBool`: reads one byte, fails on an empty buffer; the value is
true iff the byte equals 1. -/
def parseBool (s : List Nat) : ParseRes Bool :=
  match s with
  | b :: rest => .ok (b == 1) rest
  | _ => .fail

/-- Go `parseWinchRequest`: two big-endian uint32 fields (width, height);
a value of 0 for either dimension is turned into a failure
(`if width32 < 1 { ok = false }`). -/
def parseWinchRequest (s : List Nat) : Option (Nat × Nat) :=
  match parseUint32 s with
  | .ok w s1 =>
    if w < 1 then none
    else
      match parseUint32 s1 with
      | .ok h _ => if h < 1 then none else some (w, h)
      | _ => none
  | _ => none

/-- Reads one big-endian uint16 from the front of a buffer. -/
def readBE16 (s : List Nat) : Option (Nat × List Nat) :=
  match s with
  | a :: b :: rest => some (a * 256 + b, rest)
  | _ => none

/-- Reads one field preceded by its big-endian uint16 length. -/
def readLenField (s : List Nat) : Option (List Nat × List Nat) :=
  match readBE16 s with
  | some (n, rest) =>
    if n ≤ rest.length then some (rest.take n, rest.drop n) else none
  | none => none

/-- The five fields of one authority-file record as laid out by
`prepareXAuthority`: the raw 2-byte family field followed by four
length-prefixed fields. -/
structure AuthRecord where
  familyBytes : List Nat
  addr : List Nat
  number : List Nat
  name : List Nat
  data : List Nat
deriving DecidableEq

/-- Field-by-field re-parse of an authority record according to the record
layout: 2 raw family bytes, then four fields each preceded by a big-endian
uint16 length, with nothing left over. -/
def parseAuthorityRecord (s : List Nat) : Option AuthRecord :=
  match s with
  | f1 :: f2 :: rest =>
    (readLenField rest).bind fun ar =>
    (readLenField ar.2).bind fun nr =>
    (readLenField nr.2).bind fun mr =>
    (readLenField mr.2).bind fun dr =>
    if dr.2 = [] then some ⟨[f1, f2], ar.1, nr.1, mr.1, dr.1⟩ else none
  | _ => none

/-- The fields of a parsed `x11-req` payload used by the forwarder. -/
structure X11Req where
  singleConnection : Bool
  authProtocol : List Nat
  authData : List Nat
  screenNumber : Nat

/-- Environment of one call to `NewX11Forwarder`: the outcomes of its external
calls.  `le` is the host byte order, `createTempOk` the result of
`os.CreateTemp`, `bindOk p` whether `net.Listen("tcp", "localhost:p")`
succeeds, `hostname?` the result of `os.Hostname`, `writeOk` the result of
`os.WriteFile`. -/
structure X11Env where
  le : Bool
  createTempOk : Bool
  bindOk : Nat → Bool
  hostname? : Option (List Nat)
  writeOk : Bool

/-- Error value returned by `NewX11Forwarder` (Go `error`; `none` below models
a nil error). -/
inductive GoErr where
  | tempErr
  | prepErr
  | writeErr
deriving DecidableEq

/-- The triple `(net.Listener, *os.File, error)` returned by
`NewX11Forwarder`: port of the returned listener (`none` = nil listener),
whether a non-nil file handle is returned, and the error value. -/
structure FwdReturn where
  listener : Option Nat
  file : Bool
  err : Option GoErr
deriving DecidableEq

/-- Either `NewX11Forwarder` returns a triple or it panics (a panic can only
come from `prepareXAuthority`'s buffer writes). -/
inductive FwdOutcome where
  | ret (r : FwdReturn)
  | panicked
deriving DecidableEq

/-- Externally observable filesystem / socket state after `NewX11Forwarder`:
whether the temporary authority file still exists, its content, and the ports
of listeners left open. -/
structure FwdState where
  tempExists : Bool
  fileContent : List Nat
  openPorts : List Nat
deriving DecidableEq

/-- Go constants (x11.go:24-27): `X11DisplayBasePort = 6000`,
`X11DisplayOffset = 10`, host fixed to `"localhost"`. -/
def X11DisplayBasePort : Nat := 6000

/-- Go constant `X11DisplayOffset`. -/
def X11DisplayOffset : Nat := 10

/-- The `for i := 0; i < 50; i++` loop of `NewX11Forwarder` (x11.go:122-147),
called with `fuel = 50 - i`.  On a successful bind of
`basePort + offset + i` it builds and writes the authority record, cleaning
up the listener and the temp file on error; after the last failed attempt it
removes the temp file and executes `return nil, nil, err` — where `err` is
the *outer* `err` variable, which the loop's `ln, err := net.Listen` shadowed,
so the returned error is nil. -/
def newX11Loop (env : X11Env) (req : X11Req) : Nat → Nat → FwdState → FwdOutcome × FwdState
  | 0, _, st => (.ret ⟨none, false, none⟩, { st with tempExists := false })
  | fuel + 1, i, st =>
    let port := X11DisplayBasePort + X11DisplayOffset + i
    if env.bindOk port then
      let st1 : FwdState := { st with openPorts := port :: st.openPorts }
      match prepareXAuthority env.le env.hostname? req.authProtocol req.authData
          (X11DisplayOffset + i) with
      | .err =>
        (.ret ⟨none, false, some .prepErr⟩,
         { st1 with openPorts := st.openPorts, tempExists := false })
      | .panic => (.panicked, st1)
      | .ok buf =>
        if env.writeOk then
          (.ret ⟨some port, true, none⟩, { st1 with fileContent := buf })
        else
          (.ret ⟨none, false, some .writeErr⟩,
           { st1 with openPorts := st.openPorts, tempExists := false })
    else
      newX11Loop env req fuel (i + 1) st

/-- Go `NewX11Forwarder` (x11.go:111-148): creates the temporary authority
file, then scans 50 candidate ports. -/
def NewX11Forwarder (env : X11Env) (req : X11Req) : FwdOutcome × FwdState :=
  if env.createTempOk then
    newX11Loop env req 50 0 ⟨true, [], []⟩
  else
    (.ret ⟨none, false, some .tempErr⟩, ⟨false, [], []⟩)

/-- Observable events of `ForwardX11Connections` that concern the authority
file's lifecycle. -/
inductive FwdEvent where
  | accepted
  | removeAuth
deriving DecidableEq

/-- Go `ForwardX11Connections` (x11.go:152-191), projected onto its
accept loop: the input lists the successive results of `l.Accept()`
(`true` = a connection, `false` = an error, in particular the error produced
when an external caller closes the listener).  Each successful accept spawns a
per-connection goroutine — which never touches the authority file — and the
loop returns on the first accept error, at which point the single deferred
`os.Remove(xauth.Name())` runs.  The result is the emitted event trace and
whether the engine has stopped (an unexhausted input means the loop is still
blocked in `Accept`). -/
def forwardX11Trace : List Bool → List FwdEvent × Bool
  | [] => ([], false)
  | true :: rest =>
    let t := forwardX11Trace rest
    (.accepted :: t.1, t.2)
  | false :: _ => ([.removeAuth], true)

/-! Helper lemmas about sequential buffer filling. -/

theorem copyAt_fill (W rest src : List Nat) (h : src.length ≤ rest.length) :
    copyAt (W ++ rest) W.length src = (W ++ src) ++ rest.drop src.length := by
  unfold copyAt
  rw [List.take_left, List.length_append, Nat.add_sub_cancel_left,
      List.take_of_length_le h, List.drop_append, List.append_assoc]

theorem put2At_fill (W src : List Nat) (r : Nat) (hs : src.length = 2) (h2 : 2 ≤ r) :
    put2At (W ++ List.replicate r 0) W.length src
      = some ((W ++ src) ++ List.replicate (r - 2) 0) := by
  have hlen : src.length ≤ (List.replicate r 0).length := by
    rw [hs, List.length_replicate]; exact h2
  have hfit : W.length + 2 ≤ (W ++ List.replicate r 0).length := by
    rw [List.length_append, List.length_replicate]; omega
  rw [put2At, if_pos hfit, copyAt_fill _ _ _ hlen, List.drop_replicate, hs]

theorem copyCkd_fill (W src : List Nat) (r : Nat) (h : src.length ≤ r) :
    copyCkd (W ++ List.replicate r 0) W.length src
      = some ((W ++ src) ++ List.replicate (r - src.length) 0) := by
  have hlen : src.length ≤ (List.replicate r 0).length := by
    rw [List.length_replicate]; exact h
  have hpos : W.length ≤ (W ++ List.replicate r 0).length := by
    rw [List.length_append]; omega
  rw [copyCkd, if_pos hpos, copyAt_fill _ _ _ hlen, List.drop_replicate]

/-- When all four field lengths together with the 10 header bytes fit in a Go
`uint16`, none of the modular reductions in `prepareXAuthorityBytes` wraps and
the construction produces exactly the concatenation of the family bytes and
the four length-prefixed fields. -/
theorem prepareXAuthorityBytes_eq (le : Bool) (H N P D : List Nat)
    (hB : H.length + N.length + P.length + D.length + 10 ≤ 65535) :
    prepareXAuthorityBytes le H N P D =
      some ((if le then le16 1 else be16 1) ++ be16 H.length ++ H ++
            be16 N.length ++ N ++ be16 P.length ++ P ++ be16 D.length ++ D) := by
  have hfam : (if le then le16 1 else be16 1).length = 2 := by cases le <;> rfl
  have e0 : u16 H.length = H.length := by unfold u16; omega
  have e1 : u16 N.length = N.length := by unfold u16; omega
  have e2 : u16 P.length = P.length := by unfold u16; omega
  have e3 : u16 D.length = D.length := by unfold u16; omega
  have eS : u16 (H.length + N.length + P.length + D.length + 10)
      = H.length + N.length + P.length + D.length + 10 := by unfold u16; omega
  have hp4 : u16 (4 + H.length) = 4 + H.length := by unfold u16; omega
  have hp5 : u16 (4 + H.length + 2) = 4 + H.length + 2 := by unfold u16; omega
  have hp6 : u16 (4 + H.length + 2 + N.length) = 4 + H.length + 2 + N.length := by
    unfold u16; omega
  have hp7 : u16 (4 + H.length + 2 + N.length + 2) = 4 + H.length + 2 + N.length + 2 := by
    unfold u16; omega
  have hp8 : u16 (4 + H.length + 2 + N.length + 2 + P.length)
      = 4 + H.length + 2 + N.length + 2 + P.length := by unfold u16; omega
  have hp9 : u16 (4 + H.length + 2 + N.length + 2 + P.length + 2)
      = 4 + H.length + 2 + N.length + 2 + P.length + 2 := by unfold u16; omega
  have s1 : put2At
      (List.replicate (H.length + N.length + P.length + D.length + 10) 0) 0
      (if le then le16 1 else be16 1)
      = some ((if le then le16 1 else be16 1) ++
          List.replicate (H.length + N.length + P.length + D.length + 10 - 2) 0) := by
    have h := put2At_fill [] (if le then le16 1 else be16 1)
      (H.length + N.length + P.length + D.length + 10) hfam (by omega)
    simpa using h
  have s2 : put2At ((if le then le16 1 else be16 1) ++
        List.replicate (H.length + N.length + P.length + D.length + 10 - 2) 0) 2
        (be16 H.length)
      = some (((if le then le16 1 else be16 1) ++ be16 H.length) ++
          List.replicate (H.length + N.length + P.length + D.length + 10 - 2 - 2) 0) := by
    have h := put2At_fill (if le then le16 1 else be16 1) (be16 H.length)
      (H.length + N.length + P.length + D.length + 10 - 2) rfl (by omega)
    rwa [hfam] at h
  have hl4 : ((if le then le16 1 else be16 1) ++ be16 H.length).length = 4 := by
    rw [List.length_append, hfam]; rfl
  have s3 : copyCkd (((if le then le16 1 else be16 1) ++ be16 H.length) ++
        List.replicate (H.length + N.length + P.length + D.length + 10 - 2 - 2) 0) 4 H
      = some ((((if le then le16 1 else be16 1) ++ be16 H.length) ++ H) ++
          List.replicate
            (H.length + N.length + P.length + D.length + 10 - 2 - 2 - H.length) 0) := by
    have h := copyCkd_fill ((if le then le16 1 else be16 1) ++ be16 H.length) H
      (H.length + N.length + P.length + D.length + 10 - 2 - 2) (by omega)
    rwa [hl4] at h
  have hW3 : ((((if le then le16 1 else be16 1) ++ be16 H.length) ++ H)).length
      = 4 + H.length := by rw [List.length_append, hl4]
  have s4 : put2At (((((if le then le16 1 else be16 1) ++ be16 H.length) ++ H)) ++
        List.replicate
          (H.length + N.length + P.length + D.length + 10 - 2 - 2 - H.length) 0)
        (4 + H.length) (be16 N.length)
      = some ((((((if le then le16 1 else be16 1) ++ be16 H.length) ++ H)) ++
            be16 N.length) ++
          List.replicate
            (H.length + N.length + P.length + D.length + 10 - 2 - 2 - H.length - 2) 0) := by
    have h := put2At_fill ((((if le then le16 1 else be16 1) ++ be16 H.length) ++ H))
      (be16 N.length)
      (H.length + N.length + P.length + D.length + 10 - 2 - 2 - H.length) rfl (by omega)
    rwa [hW3] at h
  have hW4 : (((((if le then le16 1 else be16 1) ++ be16 H.length) ++ H) ++
      be16 N.length)).length = 4 + H.length + 2 := by
    rw [List.length_append, hW3]; rfl
  have s5 : copyCkd ((((((if le then le16 1 else be16 1) ++ be16 H.length) ++ H) ++
        be16 N.length)) ++
        List.replicate
          (H.length + N.length + P.length + D.length + 10 - 2 - 2 - H.length - 2) 0)
        (4 + H.length + 2) N
      = some (((((((if le then le16 1 else be16 1) ++ be16 H.length) ++ H) ++
            be16 N.length) ++ N)) ++
          List.replicate (H.length + N.length + P.length + D.length + 10 - 2 - 2 -
            H.length - 2 - N.length) 0) := by
    have h := copyCkd_fill (((((if le then le16 1 else be16 1) ++ be16 H.length) ++ H) ++
        be16 N.length)) N
      (H.length + N.length + P.length + D.length + 10 - 2 - 2 - H.length - 2) (by omega)
    rwa [hW4] at h
  have hW5 : ((((((if le then le16 1 else be16 1) ++ be16 H.length) ++ H) ++
      be16 N.length) ++ N)).length = 4 + H.length + 2 + N.length := by
    rw [List.length_append, hW4]
  have s6 : put2At (((((((if le then le16 1 else be16 1) ++ be16 H.length) ++ H) ++
        be16 N.length) ++ N)) ++
        List.replicate (H.length + N.length + P.length + D.length + 10 - 2 - 2 -
          H.length - 2 - N.length) 0)
        (4 + H.length + 2 + N.length) (be16 P.length)
      = some ((((((((if le then le16 1 else be16 1) ++ be16 H.length) ++ H) ++
            be16 N.length) ++ N)) ++ be16 P.length) ++
          List.replicate (H.length + N.length + P.length + D.length + 10 - 2 - 2 -
            H.length - 2 - N.length - 2) 0) := by
    have h := put2At_fill ((((((if le then le16 1 else be16 1) ++ be16 H.length) ++ H) ++
        be16 N.length) ++ N)) (be16 P.length)
      (H.length + N.length + P.length + D.length + 10 - 2 - 2 - H.length - 2 - N.length)
      rfl (by omega)
    rwa [hW5] at h
  have hW6 : (((((((if le then le16 1 else be16 1) ++ be16 H.length) ++ H) ++
      be16 N.length) ++ N) ++ be16 P.length)).length
      = 4 + H.length + 2 + N.length + 2 := by
    rw [List.length_append, hW5]; rfl
  have s7 : copyCkd ((((((((if le then le16 1 else be16 1) ++ be16 H.length) ++ H) ++
        be16 N.length) ++ N) ++ be16 P.length)) ++
        List.replicate (H.length + N.length + P.length + D.length + 10 - 2 - 2 -
          H.length - 2 - N.length - 2) 0)
        (4 + H.length + 2 + N.length + 2) P
      = some ((((((((if le then le16 1 else be16 1) ++ be16 H.length) ++ H) ++
            be16 N.length) ++ N) ++ be16 P.length) ++ P) ++
          List.replicate (H.length + N.length + P.length + D.length + 10 - 2 - 2 -
            H.length - 2 - N.length - 2 - P.length) 0) := by
    have h := copyCkd_fill (((((((if le then le16 1 else be16 1) ++ be16 H.length) ++ H) ++
        be16 N.length) ++ N) ++ be16 P.length)) P
      (H.length + N.length + P.length + D.length + 10 - 2 - 2 - H.length - 2 - N.length - 2)
      (by omega)
    rwa [hW6] at h
  have hW7 : ((((((((if le then le16 1 else be16 1) ++ be16 H.length) ++ H) ++
      be16 N.length) ++ N) ++ be16 P.length) ++ P)).length
      = 4 + H.length + 2 + N.length + 2 + P.length := by
    rw [List.length_append, hW6]
  have s8 : put2At ((((((((if le then le16 1 else be16 1) ++ be16 H.length) ++ H) ++
        be16 N.length) ++ N) ++ be16 P.length) ++ P) ++
        List.replicate (H.length + N.length + P.length + D.length + 10 - 2 - 2 -
          H.length - 2 - N.length - 2 - P.length) 0)
        (4 + H.length + 2 + N.length + 2 + P.length) (be16 D.length)
      = some (((((((((if le then le16 1 else be16 1) ++ be16 H.length) ++ H) ++
            be16 N.length) ++ N) ++ be16 P.length) ++ P) ++ be16 D.length) ++
          List.replicate (H.length + N.length + P.length + D.length + 10 - 2 - 2 -
            H.length - 2 - N.length - 2 - P.length - 2) 0) := by
    have h := put2At_fill ((((((((if le then le16 1 else be16 1) ++ be16 H.length) ++ H) ++
        be16 N.length) ++ N) ++ be16 P.length) ++ P)) (be16 D.length)
      (H.length + N.length + P.length + D.length + 10 - 2 - 2 - H.length - 2 -
        N.length - 2 - P.length) rfl (by omega)
    rwa [hW7] at h
  have hW8 : (((((((((if le then le16 1 else be16 1) ++ be16 H.length) ++ H) ++
      be16 N.length) ++ N) ++ be16 P.length) ++ P) ++ be16 D.length)).length
      = 4 + H.length + 2 + N.length + 2 + P.length + 2 := by
    rw [List.length_append, hW7]; rfl
  have s9 : copyCkd (((((((((if le then le16 1 else be16 1) ++ be16 H.length) ++ H) ++
        be16 N.length) ++ N) ++ be16 P.length) ++ P) ++ be16 D.length) ++
        List.replicate (H.length + N.length + P.length + D.length + 10 - 2 - 2 -
          H.length - 2 - N.length - 2 - P.length - 2) 0)
        (4 + H.length + 2 + N.length + 2 + P.length + 2) D
      = some (((((((((if le then le16 1 else be16 1) ++ be16 H.length) ++ H) ++
            be16 N.length) ++ N) ++ be16 P.length) ++ P) ++ be16 D.length) ++ D) := by
    have h := copyCkd_fill ((((((((if le then le16 1 else be16 1) ++ be16 H.length) ++ H) ++
        be16 N.length) ++ N) ++ be16 P.length) ++ P) ++ be16 D.length) D
      (H.length + N.length + P.length + D.length + 10 - 2 - 2 - H.length - 2 -
        N.length - 2 - P.length - 2) (by omega)
    rw [hW8] at h
    rw [show H.length + N.length + P.length + D.length + 10 - 2 - 2 - H.length - 2 -
        N.length - 2 - P.length - 2 - D.length = 0 by omega] at h
    rwa [List.replicate_zero, List.append_nil] at h
  simp only [prepareXAuthorityBytes]
  rw [e0, e1, e2, e3, eS, hp4, hp5, hp6, hp7, hp8, hp9]
  rw [s1]
  simp only [Option.some_bind]
  rw [s2]
  simp only [Option.some_bind]
  rw [s3]
  simp only [Option.some_bind]
  rw [s4]
  simp only [Option.some_bind]
  rw [s5]
  simp only [Option.some_bind]
  rw [s6]
  simp only [Option.some_bind]
  rw [s7]
  simp only [Option.some_bind]
  rw [s8]
  simp only [Option.some_bind]
  rw [s9]

/-- A field whose big-endian uint16 length prefix was written from an
unwrapped length re-parses exactly. -/
theorem readLenField_exact (L rest : List Nat) (h : L.length < 65536) :
    readLenField ((be16 L.length ++ L) ++ rest) = some (L, rest) := by
  have hn : L.length / 256 % 256 * 256 + L.length % 256 = L.length := by omega
  have hsplit : (be16 L.length ++ L) ++ rest
      = (L.length / 256 % 256) :: (L.length % 256) :: (L ++ rest) := by
    simp [be16]
  rw [hsplit]
  simp only [readLenField, readBE16]
  rw [hn, if_pos (by rw [List.length_append]; omega)]
  rw [List.take_left, List.drop_left]

/-- Re-parsing a flat authority record recovers the five original fields. -/
theorem parseAuthorityRecord_flat (f1 f2 : Nat) (H N P D : List Nat)
    (hH : H.length < 65536) (hN : N.length < 65536) (hP : P.length < 65536)
    (hD : D.length < 65536) :
    parseAuthorityRecord ([f1, f2] ++ be16 H.length ++ H ++ be16 N.length ++ N ++
        be16 P.length ++ P ++ be16 D.length ++ D)
      = some ⟨[f1, f2], H, N, P, D⟩ := by
  have key : [f1, f2] ++ be16 H.length ++ H ++ be16 N.length ++ N ++
      be16 P.length ++ P ++ be16 D.length ++ D
      = f1 :: f2 :: ((be16 H.length ++ H) ++ ((be16 N.length ++ N) ++
          ((be16 P.length ++ P) ++ ((be16 D.length ++ D) ++ [])))) := by
    simp [List.append_assoc]
  rw [key]
  simp only [parseAuthorityRecord]
  rw [readLenField_exact H _ hH]
  simp only [Option.some_bind]
  rw [readLenField_exact N _ hN]
  simp only [Option.some_bind]
  rw [readLenField_exact P _ hP]
  simp only [Option.some_bind]
  rw [readLenField_exact D [] hD]
  simp only [Option.some_bind]
  simp

/-- One failed bind advances the scan to the next candidate port. -/
theorem newX11Loop_skip (env : X11Env) (req : X11Req) (fuel i : Nat) (st : FwdState)
    (h : env.bindOk (X11DisplayBasePort + X11DisplayOffset + i) = false) :
    newX11Loop env req (fuel + 1) i st = newX11Loop env req fuel (i + 1) st := by
  simp [newX11Loop, h]

/-- A run of `k` failed binds advances the scan `k` candidates. -/
theorem newX11Loop_shift (env : X11Env) (req : X11Req) :
    ∀ (k fuel i : Nat) (st : FwdState),
      (∀ j, j < k → env.bindOk (X11DisplayBasePort + X11DisplayOffset + (i + j)) = false) →
      k ≤ fuel →
      newX11Loop env req fuel i st = newX11Loop env req (fuel - k) (i + k) st := by
  intro k
  induction k with
  | zero => intro fuel i st _ _; simp
  | succ m ih =>
    intro fuel i st h hk
    cases fuel with
    | zero => omega
    | succ f =>
      rw [newX11Loop_skip env req f i st (by simpa using h 0 (by omega))]
      have hrec := ih f (i + 1) st
        (fun j hj => by
          have hh := h (j + 1) (by omega)
          have e : i + (j + 1) = i + 1 + j := by omega
          rwa [e] at hh)
        (by omega)
      rw [hrec]
      have e1 : f - m = f + 1 - (m + 1) := by omega
      have e2 : i + 1 + m = i + (m + 1) := by omega
      rw [e1, e2]

/-- Claim C2: the claim says the primitive parsers are total and in particular that
`parseString` never indexes past the buffer for any value of the declared
length field.  The code contradicts this: its own bounds check
`uint32(len(in)) < 4+length` is clearly meant to guarantee the subsequent
slice is in range, but `4+length` is computed in `uint32` and wraps for
declared lengths at or above 2^32-4, so the check passes and the slice
`in[4 : 4+length]` panics.  Concretely, on the 4-byte buffer
`FF FF FF FF` (declared length 4294967295, 0 bytes remaining) the function
panics instead of returning failure. -/
theorem parseString_wrap_panic : parseString [255, 255, 255, 255] = .panic := by decide

/-- Claim C7: for every one-byte-or-longer buffer, `parseBool` succeeds and returns
true exactly when the first byte equals 1 (so byte 0 and every byte ≥ 2 give
false), and the empty buffer fails. -/
theorem parseBool_spec :
    (∀ (b : Nat) (rest : List Nat),
      parseBool (b :: rest) = .ok (b == 1) rest ∧ ((b == 1) = true ↔ b = 1)) ∧
    parseBool [] = .fail := by
  refine ⟨fun b rest => ⟨rfl, ?_⟩, rfl⟩
  simp

/-- Witness for C7: byte 2 (nonzero, unequal to 1) decodes to false. -/
theorem parseBool_spec_witness : parseBool [2, 7] = .ok false [7] := by
  have h := (parseBool_spec.1 2 [7]).1
  simpa using h

/-- Claim C8: `parseWinchRequest` succeeds, returning width and height, exactly when
both 4-byte big-endian fields decode and both values are at least 1; a decoded
value of 0 for either dimension is a failure even when the raw bytes are
well-formed. -/
theorem parseWinchRequest_spec (s : List Nat) (w h : Nat) :
    parseWinchRequest s = some (w, h) ↔
      ∃ s1 s2, parseUint32 s = .ok w s1 ∧ parseUint32 s1 = .ok h s2 ∧
        1 ≤ w ∧ 1 ≤ h := by
  constructor
  · intro he
    unfold parseWinchRequest at he
    cases hp : parseUint32 s with
    | fail => simp only [hp] at he; simp at he
    | panic => simp only [hp] at he; simp at he
    | ok w1 s1 =>
      simp only [hp] at he
      by_cases hw : w1 < 1
      · rw [if_pos hw] at he; simp at he
      · rw [if_neg hw] at he
        cases hq : parseUint32 s1 with
        | fail => simp only [hq] at he; simp at he
        | panic => simp only [hq] at he; simp at he
        | ok h1 s2 =>
          simp only [hq] at he
          by_cases hh : h1 < 1
          · rw [if_pos hh] at he; simp at he
          · rw [if_neg hh] at he
            rw [Option.some_inj] at he
            injection he with hww hhh
            subst hww
            subst hhh
            exact ⟨s1, s2, rfl, hq, by omega, by omega⟩
  · rintro ⟨s1, s2, hp, hq, hw, hh⟩
    unfold parseWinchRequest
    simp only [hp]
    rw [if_neg (by omega)]
    simp only [hq]
    rw [if_neg (by omega)]

/-- Witness for C8: an 8-byte payload decoding to width 3, height 4. -/
theorem parseWinchRequest_spec_witness :
    parseWinchRequest [0, 0, 0, 3, 0, 0, 0, 4] = some (3, 4) :=
  (parseWinchRequest_spec [0, 0, 0, 3, 0, 0, 0, 4] 3 4).mpr
    ⟨[0, 0, 0, 4], [], rfl, rfl, by omega, by omega⟩

/-- Claim C9: over any sequence of accept results, the trace of
`ForwardX11Connections` is the accepted connections followed by exactly one
authority-file deletion if and only if some accept fails (the engine stops);
if no accept has failed yet the file has not been deleted.  Hence the file is
deleted exactly once, only at the transition to the stopped state on the
first accept failure, and never twice. -/
theorem forwardX11Trace_spec (evs : List Bool) :
    forwardX11Trace evs =
      (List.replicate (evs.takeWhile (fun b => b)).length FwdEvent.accepted ++
        (if evs.any (fun b => !b) then [FwdEvent.removeAuth] else []),
       evs.any (fun b => !b)) := by
  induction evs with
  | nil => rfl
  | cons b rest ih =>
    cases b with
    | false => simp [forwardX11Trace, List.takeWhile]
    | true => simp [forwardX11Trace, ih, List.takeWhile, List.replicate_succ]

/-- Witness for C9: two accepted connections, then an accept failure. -/
theorem forwardX11Trace_spec_witness :
    forwardX11Trace [true, true, false]
      = ([.accepted, .accepted, .removeAuth], true) := by
  have h := forwardX11Trace_spec [true, true, false]
  simpa using h

/-- Claim C1: the claim says that when all 50 candidate binds fail,
`NewX11Forwarder` returns the last bind error (non-nil).  The code
contradicts this: the loop's `ln, err := net.Listen(...)` declares a fresh
`err` that shadows the function-scope `err`, so the final
`return nil, nil, err` returns the *outer* `err`, which is nil after the
successful `os.CreateTemp`.  The temporary file is, as claimed, removed.
This theorem shows the returned error is `none` (Go nil) while the temp file
no longer exists. -/
theorem newX11Forwarder_exhaust_nil_error (env : X11Env) (req : X11Req)
    (hc : env.createTempOk = true)
    (hall : ∀ j, j < 50 → env.bindOk (X11DisplayBasePort + X11DisplayOffset + j) = false) :
    NewX11Forwarder env req = (.ret ⟨none, false, none⟩, ⟨false, [], []⟩) := by
  unfold NewX11Forwarder
  rw [if_pos hc]
  rw [newX11Loop_shift env req 50 50 0 ⟨true, [], []⟩
      (fun j hj => by simpa using hall j hj) (by omega)]
  rfl

/-- Witness for C1: a concrete environment where every bind fails. -/
theorem newX11Forwarder_exhaust_nil_error_witness :
    NewX11Forwarder ⟨false, true, fun _ => false, some [104], true⟩ ⟨false, [], [], 0⟩
      = (.ret ⟨none, false, none⟩, ⟨false, [], []⟩) :=
  newX11Forwarder_exhaust_nil_error _ _ rfl (fun _ _ => rfl)

/-- Claim C5: if the first successful bind happens at attempt `i` but building the
authority record fails with an error, or writing it fails, then
`NewX11Forwarder` returns a non-nil error with nil listener and file, the
just-bound listener is closed (no open port remains) and the temporary file
is removed — no listener or file survives the error path. -/
theorem newX11Forwarder_failure_cleanup (env : X11Env) (req : X11Req) (i : Nat)
    (hc : env.createTempOk = true) (hi : i < 50)
    (hj : ∀ j, j < i → env.bindOk (X11DisplayBasePort + X11DisplayOffset + j) = false)
    (hb : env.bindOk (X11DisplayBasePort + X11DisplayOffset + i) = true)
    (hfail : prepareXAuthority env.le env.hostname? req.authProtocol req.authData
        (X11DisplayOffset + i) = .err ∨
      ((∃ buf, prepareXAuthority env.le env.hostname? req.authProtocol req.authData
          (X11DisplayOffset + i) = .ok buf) ∧ env.writeOk = false)) :
    ∃ e, NewX11Forwarder env req = (.ret ⟨none, false, some e⟩, ⟨false, [], []⟩) := by
  unfold NewX11Forwarder
  rw [if_pos hc]
  rw [newX11Loop_shift env req i 50 0 ⟨true, [], []⟩
      (fun j hjj => by simpa using hj j hjj) (by omega)]
  rw [show 50 - i = (49 - i) + 1 by omega]
  simp only [Nat.zero_add]
  simp only [newX11Loop]
  rw [if_pos hb]
  rcases hfail with hprep | ⟨⟨buf, hok⟩, hw⟩
  · simp only [hprep]
    exact ⟨.prepErr, rfl⟩
  · simp only [hok]
    rw [if_neg (by simp [hw])]
    exact ⟨.writeErr, rfl⟩

/-- Witness for C5: bind succeeds immediately, but hostname resolution fails
while building the record; the error surfaces and everything is cleaned up. -/
theorem newX11Forwarder_failure_cleanup_witness :
    ∃ e, NewX11Forwarder ⟨false, true, fun _ => true, none, true⟩ ⟨false, [], [], 0⟩
      = (.ret ⟨none, false, some e⟩, ⟨false, [], []⟩) :=
  newX11Forwarder_failure_cleanup _ _ 0 rfl (by omega)
    (fun j hj => by omega) rfl (Or.inl rfl)

/-- Claim C6: when the first successful bind is at attempt `i` (all earlier
candidates fail) and the record build and write succeed, `NewX11Forwarder`
returns a listener bound to port `basePort + offset + i` with a nil error,
and the authority record written to the temp file carries the display
number `offset + i` as its decimal string (recovered here by re-parsing the
written bytes). -/
theorem newX11Forwarder_first_free_port (env : X11Env) (req : X11Req) (i : Nat)
    (H data : List Nat)
    (hc : env.createTempOk = true) (hi : i < 50)
    (hj : ∀ j, j < i → env.bindOk (X11DisplayBasePort + X11DisplayOffset + j) = false)
    (hb : env.bindOk (X11DisplayBasePort + X11DisplayOffset + i) = true)
    (hhost : env.hostname? = some H)
    (hhex : hexDecode req.authData = some data)
    (hw : env.writeOk = true)
    (hB : H.length + (decStr (X11DisplayOffset + i)).length + req.authProtocol.length +
        data.length + 10 ≤ 65535) :
    ∃ buf,
      NewX11Forwarder env req
        = (.ret ⟨some (X11DisplayBasePort + X11DisplayOffset + i), true, none⟩,
           ⟨true, buf, [X11DisplayBasePort + X11DisplayOffset + i]⟩) ∧
      (parseAuthorityRecord buf).map AuthRecord.number
        = some (decStr (X11DisplayOffset + i)) := by
  have hprep : prepareXAuthority env.le env.hostname? req.authProtocol req.authData
      (X11DisplayOffset + i)
      = .ok ((if env.le then le16 1 else be16 1) ++ be16 H.length ++ H ++
          be16 (decStr (X11DisplayOffset + i)).length ++ decStr (X11DisplayOffset + i) ++
          be16 req.authProtocol.length ++ req.authProtocol ++ be16 data.length ++ data) := by
    simp only [prepareXAuthority, hhex, hhost]
    rw [prepareXAuthorityBytes_eq env.le H (decStr (X11DisplayOffset + i))
        req.authProtocol data hB]
  refine ⟨(if env.le then le16 1 else be16 1) ++ be16 H.length ++ H ++
      be16 (decStr (X11DisplayOffset + i)).length ++ decStr (X11DisplayOffset + i) ++
      be16 req.authProtocol.length ++ req.authProtocol ++ be16 data.length ++ data,
    ?_, ?_⟩
  · unfold NewX11Forwarder
    rw [if_pos hc]
    rw [newX11Loop_shift env req i 50 0 ⟨true, [], []⟩
        (fun j hjj => by simpa using hj j hjj) (by omega)]
    rw [show 50 - i = (49 - i) + 1 by omega]
    simp only [Nat.zero_add]
    simp only [newX11Loop]
    rw [if_pos hb]
    simp only [hprep]
    rw [if_pos hw]
  · cases hle : env.le with
    | false =>
      rw [show (if (false : Bool) then le16 1 else be16 1) = [(0 : Nat), 1] from rfl]
      rw [parseAuthorityRecord_flat 0 1 H (decStr (X11DisplayOffset + i))
          req.authProtocol data (by omega) (by omega) (by omega) (by omega)]
      rfl
    | true =>
      rw [show (if (true : Bool) then le16 1 else be16 1) = [(1 : Nat), 0] from rfl]
      rw [parseAuthorityRecord_flat 1 0 H (decStr (X11DisplayOffset + i))
          req.authProtocol data (by omega) (by omega) (by omega) (by omega)]
      rfl

/-- Witness for C6, the spec's "37th candidate free" scenario: only port 6046
is bindable, so the listener lands on `basePort + offset + 36` and the record
embeds display number 46. -/
theorem newX11Forwarder_first_free_port_witness :
    ∃ buf,
      NewX11Forwarder ⟨false, true, fun p => p == 6046, some [104], true⟩ ⟨false, [77], [], 0⟩
        = (.ret ⟨some (X11DisplayBasePort + X11DisplayOffset + 36), true, none⟩,
           ⟨true, buf, [X11DisplayBasePort + X11DisplayOffset + 36]⟩) ∧
      (parseAuthorityRecord buf).map AuthRecord.number
        = some (decStr (X11DisplayOffset + 36)) :=
  newX11Forwarder_first_free_port _ _ 36 [104] [] rfl (by omega)
    (by decide) (by decide) rfl rfl rfl (by decide)

/-- Claim C4: in every record built without uint16 overflow, the first two bytes —
the address-family field — are written in host-native byte order (the
little-endian byte pair of `AF_LOCAL = 1` on a little-endian host, the
big-endian pair otherwise), while the rest of the record consists of the four
fields each preceded by its big-endian uint16 length. -/
theorem prepareXAuthority_family_host_order (le : Bool) (H N P D : List Nat)
    (hB : H.length + N.length + P.length + D.length + 10 ≤ 65535) :
    ∃ buf, prepareXAuthorityBytes le H N P D = some buf ∧
      buf.take 2 = (if le then le16 1 else be16 1) ∧
      buf.drop 2 = be16 H.length ++ H ++ be16 N.length ++ N ++
        be16 P.length ++ P ++ be16 D.length ++ D := by
  have hfam : (if le then le16 1 else be16 1).length = 2 := by cases le <;> rfl
  have hsplit : (if le then le16 1 else be16 1) ++ be16 H.length ++ H ++
        be16 N.length ++ N ++ be16 P.length ++ P ++ be16 D.length ++ D
      = (if le then le16 1 else be16 1) ++ (be16 H.length ++ (H ++ (be16 N.length ++
          (N ++ (be16 P.length ++ (P ++ (be16 D.length ++ D))))))) := by
    simp [List.append_assoc]
  refine ⟨(if le then le16 1 else be16 1) ++ be16 H.length ++ H ++
      be16 N.length ++ N ++ be16 P.length ++ P ++ be16 D.length ++ D,
    prepareXAuthorityBytes_eq le H N P D hB, ?_, ?_⟩
  · rw [hsplit, List.take_left' hfam]
  · rw [hsplit, List.drop_left' hfam]
    simp [List.append_assoc]

/-- Witness for C4, little-endian host: the family bytes come out as
`[1, 0]` (low byte first) while all four length prefixes are big-endian. -/
theorem prepareXAuthority_family_host_order_witness :
    ∃ buf, prepareXAuthorityBytes true [104] [52, 54] [77] [9] = some buf ∧
      buf.take 2 = (if true then le16 1 else be16 1) ∧
      buf.drop 2 = be16 ([104] : List Nat).length ++ [104] ++
        be16 ([52, 54] : List Nat).length ++ [52, 54] ++
        be16 ([77] : List Nat).length ++ [77] ++ be16 ([9] : List Nat).length ++ [9] :=
  prepareXAuthority_family_host_order true [104] [52, 54] [77] [9] (by decide)

/-- A hostname whose record construction returns `none` makes
`prepareXAuthority` panic. -/
theorem prep_panics_of_bytes_none (le : Bool) (Hst P hx : List Nat) (n : Nat)
    (D : List Nat) (hhex : hexDecode hx = some D)
    (hb : prepareXAuthorityBytes le Hst (decStr n) P D = none) :
    prepareXAuthority le (some Hst) P hx n = .panic := by
  simp only [prepareXAuthority, hhex, hb]

/-- Claim C3 as frozen quantifies over *every* hostname.  It fails on the code for
hostnames so long that the uint16 buffer-size arithmetic wraps: with a
65526-byte hostname, an empty protocol name and empty auth data, the computed
buffer size is `(65526 + 1 + 0 + 0 + 10) mod 2^16 = 1`, and the very first
2-byte write panics, so no buffer that re-parses to the original fields is
produced at an input inside the claim's scope (auth data of length 0). -/
theorem prepareXAuthority_roundtrip_counterexample :
    prepareXAuthority false (some (List.replicate 65526 97)) [] [] 0 = .panic :=
  prep_panics_of_bytes_none false (List.replicate 65526 97) [] [] 0 [] rfl
    (by
      have hd : decStr 0 = [48] := rfl
      simp only [prepareXAuthorityBytes, hd, List.length_replicate]
      norm_num [u16, put2At])

/-- Claim C3, amended: for every hostname, auth-protocol name and raw auth data of
length 0, 16 or 256 whose field lengths (with the display number's decimal
digits) sum with the 10 header bytes to at most 65535 — so that no uint16
length or size wraps — the record built by `prepareXAuthority` re-parses
field-by-field to exactly the original hostname, the decimal string of the
display number, the auth-protocol name, and the raw auth-data bytes. -/
theorem prepareXAuthority_roundtrip (le : Bool) (H P D hx : List Nat) (n : Nat)
    (hhex : hexDecode hx = some D)
    (hD : D.length = 0 ∨ D.length = 16 ∨ D.length = 256)
    (hB : H.length + (decStr n).length + P.length + D.length + 10 ≤ 65535) :
    ∃ buf, prepareXAuthority le (some H) P hx n = .ok buf ∧
      parseAuthorityRecord buf
        = some ⟨if le then le16 1 else be16 1, H, decStr n, P, D⟩ := by
  refine ⟨(if le then le16 1 else be16 1) ++ be16 H.length ++ H ++
      be16 (decStr n).length ++ decStr n ++ be16 P.length ++ P ++
      be16 D.length ++ D, ?_, ?_⟩
  · simp only [prepareXAuthority, hhex]
    rw [prepareXAuthorityBytes_eq le H (decStr n) P D hB]
  · cases le with
    | false =>
      rw [show (if (false : Bool) then le16 1 else be16 1) = [(0 : Nat), 1] from rfl]
      exact parseAuthorityRecord_flat 0 1 H (decStr n) P D
        (by omega) (by omega) (by omega) (by omega)
    | true =>
      rw [show (if (true : Bool) then le16 1 else be16 1) = [(1 : Nat), 0] from rfl]
      exact parseAuthorityRecord_flat 1 0 H (decStr n) P D
        (by omega) (by omega) (by omega) (by omega)

/-- Witness for amended C3: one-byte hostname, one-byte protocol, 16 bytes of
auth data (32 hex digits), display number 0. -/
theorem prepareXAuthority_roundtrip_witness :
    ∃ buf, prepareXAuthority false (some [104]) [77] (List.replicate 32 48) 0 = .ok buf ∧
      parseAuthorityRecord buf
        = some ⟨if false then le16 1 else be16 1, [104], decStr 0, [77],
            List.replicate 16 0⟩ :=
  prepareXAuthority_roundtrip false [104] [77] (List.replicate 16 0)
    (List.replicate 32 48) 0 (by decide) (by decide) (by decide)

/-- Copying any source at the very end of a buffer leaves it unchanged. -/
theorem copyCkd_self_end (W src : List Nat) :
    copyCkd W W.length src = some W := by
  rw [copyCkd, if_pos (Nat.le_refl _), copyAt, List.take_length, Nat.sub_self,
      List.take_zero, List.drop_of_length_le (by omega), List.append_nil,
      List.append_nil]

/-- When the data length wraps to 0 in `uint16` but the other three fields fit,
the construction silently writes a `0` length prefix and drops the data
bytes entirely — no error, no panic. -/
theorem prepareXAuthorityBytes_data_wrap (le : Bool) (H N P D : List Nat)
    (hD0 : u16 D.length = 0)
    (hB : H.length + N.length + P.length + 10 ≤ 65535) :
    prepareXAuthorityBytes le H N P D =
      some ((if le then le16 1 else be16 1) ++ be16 H.length ++ H ++
            be16 N.length ++ N ++ be16 P.length ++ P ++ be16 0) := by
  have hfam : (if le then le16 1 else be16 1).length = 2 := by cases le <;> rfl
  have e0 : u16 H.length = H.length := by unfold u16; omega
  have e1 : u16 N.length = N.length := by unfold u16; omega
  have e2 : u16 P.length = P.length := by unfold u16; omega
  have eS : u16 (H.length + N.length + P.length + 0 + 10)
      = H.length + N.length + P.length + 0 + 10 := by unfold u16; omega
  have hp4 : u16 (4 + H.length) = 4 + H.length := by unfold u16; omega
  have hp5 : u16 (4 + H.length + 2) = 4 + H.length + 2 := by unfold u16; omega
  have hp6 : u16 (4 + H.length + 2 + N.length) = 4 + H.length + 2 + N.length := by
    unfold u16; omega
  have hp7 : u16 (4 + H.length + 2 + N.length + 2) = 4 + H.length + 2 + N.length + 2 := by
    unfold u16; omega
  have hp8 : u16 (4 + H.length + 2 + N.length + 2 + P.length)
      = 4 + H.length + 2 + N.length + 2 + P.length := by unfold u16; omega
  have hp9 : u16 (4 + H.length + 2 + N.length + 2 + P.length + 2)
      = 4 + H.length + 2 + N.length + 2 + P.length + 2 := by unfold u16; omega
  have s1 : put2At
      (List.replicate (H.length + N.length + P.length + 0 + 10) 0) 0
      (if le then le16 1 else be16 1)
      = some ((if le then le16 1 else be16 1) ++
          List.replicate (H.length + N.length + P.length + 0 + 10 - 2) 0) := by
    have h := put2At_fill [] (if le then le16 1 else be16 1)
      (H.length + N.length + P.length + 0 + 10) hfam (by omega)
    simpa using h
  have s2 : put2At ((if le then le16 1 else be16 1) ++
        List.replicate (H.length + N.length + P.length + 0 + 10 - 2) 0) 2
        (be16 H.length)
      = some (((if le then le16 1 else be16 1) ++ be16 H.length) ++
          List.replicate (H.length + N.length + P.length + 0 + 10 - 2 - 2) 0) := by
    have h := put2At_fill (if le then le16 1 else be16 1) (be16 H.length)
      (H.length + N.length + P.length + 0 + 10 - 2) rfl (by omega)
    rwa [hfam] at h
  have hl4 : ((if le then le16 1 else be16 1) ++ be16 H.length).length = 4 := by
    rw [List.length_append, hfam]; rfl
  have s3 : copyCkd (((if le then le16 1 else be16 1) ++ be16 H.length) ++
        List.replicate (H.length + N.length + P.length + 0 + 10 - 2 - 2) 0) 4 H
      = some ((((if le then le16 1 else be16 1) ++ be16 H.length) ++ H) ++
          List.replicate
            (H.length + N.length + P.length + 0 + 10 - 2 - 2 - H.length) 0) := by
    have h := copyCkd_fill ((if le then le16 1 else be16 1) ++ be16 H.length) H
      (H.length + N.length + P.length + 0 + 10 - 2 - 2) (by omega)
    rwa [hl4] at h
  have hW3 : ((((if le then le16 1 else be16 1) ++ be16 H.length) ++ H)).length
      = 4 + H.length := by rw [List.length_append, hl4]
  have s4 : put2At (((((if le then le16 1 else be16 1) ++ be16 H.length) ++ H)) ++
        List.replicate
          (H.length + N.length + P.length + 0 + 10 - 2 - 2 - H.length) 0)
        (4 + H.length) (be16 N.length)
      = some ((((((if le then le16 1 else be16 1) ++ be16 H.length) ++ H)) ++
            be16 N.length) ++
          List.replicate
            (H.length + N.length + P.length + 0 + 10 - 2 - 2 - H.length - 2) 0) := by
    have h := put2At_fill ((((if le then le16 1 else be16 1) ++ be16 H.length) ++ H))
      (be16 N.length)
      (H.length + N.length + P.length + 0 + 10 - 2 - 2 - H.length) rfl (by omega)
    rwa [hW3] at h
  have hW4 : (((((if le then le16 1 else be16 1) ++ be16 H.length) ++ H) ++
      be16 N.length)).length = 4 + H.length + 2 := by
    rw [List.length_append, hW3]; rfl
  have s5 : copyCkd ((((((if le then le16 1 else be16 1) ++ be16 H.length) ++ H) ++
        be16 N.length)) ++
        List.replicate
          (H.length + N.length + P.length + 0 + 10 - 2 - 2 - H.length - 2) 0)
        (4 + H.length + 2) N
      = some (((((((if le then le16 1 else be16 1) ++ be16 H.length) ++ H) ++
            be16 N.length) ++ N)) ++
          List.replicate (H.length + N.length + P.length + 0 + 10 - 2 - 2 -
            H.length - 2 - N.length) 0) := by
    have h := copyCkd_fill (((((if le then le16 1 else be16 1) ++ be16 H.length) ++ H) ++
        be16 N.length)) N
      (H.length + N.length + P.length + 0 + 10 - 2 - 2 - H.length - 2) (by omega)
    rwa [hW4] at h
  have hW5 : ((((((if le then le16 1 else be16 1) ++ be16 H.length) ++ H) ++
      be16 N.length) ++ N)).length = 4 + H.length + 2 + N.length := by
    rw [List.length_append, hW4]
  have s6 : put2At (((((((if le then le16 1 else be16 1) ++ be16 H.length) ++ H) ++
        be16 N.length) ++ N)) ++
        List.replicate (H.length + N.length + P.length + 0 + 10 - 2 - 2 -
          H.length - 2 - N.length) 0)
        (4 + H.length + 2 + N.length) (be16 P.length)
      = some ((((((((if le then le16 1 else be16 1) ++ be16 H.length) ++ H) ++
            be16 N.length) ++ N)) ++ be16 P.length) ++
          List.replicate (H.length + N.length + P.length + 0 + 10 - 2 - 2 -
            H.length - 2 - N.length - 2) 0) := by
    have h := put2At_fill ((((((if le then le16 1 else be16 1) ++ be16 H.length) ++ H) ++
        be16 N.length) ++ N)) (be16 P.length)
      (H.length + N.length + P.length + 0 + 10 - 2 - 2 - H.length - 2 - N.length)
      rfl (by omega)
    rwa [hW5] at h
  have hW6 : (((((((if le then le16 1 else be16 1) ++ be16 H.length) ++ H) ++
      be16 N.length) ++ N) ++ be16 P.length)).length
      = 4 + H.length + 2 + N.length + 2 := by
    rw [List.length_append, hW5]; rfl
  have s7 : copyCkd ((((((((if le then le16 1 else be16 1) ++ be16 H.length) ++ H) ++
        be16 N.length) ++ N) ++ be16 P.length)) ++
        List.replicate (H.length + N.length + P.length + 0 + 10 - 2 - 2 -
          H.length - 2 - N.length - 2) 0)
        (4 + H.length + 2 + N.length + 2) P
      = some ((((((((if le then le16 1 else be16 1) ++ be16 H.length) ++ H) ++
            be16 N.length) ++ N) ++ be16 P.length) ++ P) ++
          List.replicate (H.length + N.length + P.length + 0 + 10 - 2 - 2 -
            H.length - 2 - N.length - 2 - P.length) 0) := by
    have h := copyCkd_fill (((((((if le then le16 1 else be16 1) ++ be16 H.length) ++ H) ++
        be16 N.length) ++ N) ++ be16 P.length)) P
      (H.length + N.length + P.length + 0 + 10 - 2 - 2 - H.length - 2 - N.length - 2)
      (by omega)
    rwa [hW6] at h
  have hW7 : ((((((((if le then le16 1 else be16 1) ++ be16 H.length) ++ H) ++
      be16 N.length) ++ N) ++ be16 P.length) ++ P)).length
      = 4 + H.length + 2 + N.length + 2 + P.length := by
    rw [List.length_append, hW6]
  have s8 : put2At ((((((((if le then le16 1 else be16 1) ++ be16 H.length) ++ H) ++
        be16 N.length) ++ N) ++ be16 P.length) ++ P) ++
        List.replicate (H.length + N.length + P.length + 0 + 10 - 2 - 2 -
          H.length - 2 - N.length - 2 - P.length) 0)
        (4 + H.length + 2 + N.length + 2 + P.length) (be16 0)
      = some (((((((((if le then le16 1 else be16 1) ++ be16 H.length) ++ H) ++
            be16 N.length) ++ N) ++ be16 P.length) ++ P) ++ be16 0) ++
          List.replicate (H.length + N.length + P.length + 0 + 10 - 2 - 2 -
            H.length - 2 - N.length - 2 - P.length - 2) 0) := by
    have h := put2At_fill ((((((((if le then le16 1 else be16 1) ++ be16 H.length) ++ H) ++
        be16 N.length) ++ N) ++ be16 P.length) ++ P)) (be16 0)
      (H.length + N.length + P.length + 0 + 10 - 2 - 2 - H.length - 2 -
        N.length - 2 - P.length) rfl (by omega)
    rwa [hW7] at h
  have hW8 : (((((((((if le then le16 1 else be16 1) ++ be16 H.length) ++ H) ++
      be16 N.length) ++ N) ++ be16 P.length) ++ P) ++ be16 0)).length
      = 4 + H.length + 2 + N.length + 2 + P.length + 2 := by
    rw [List.length_append, hW7]; rfl
  have s9 : copyCkd (((((((((if le then le16 1 else be16 1) ++ be16 H.length) ++ H) ++
        be16 N.length) ++ N) ++ be16 P.length) ++ P) ++ be16 0) ++
        List.replicate (H.length + N.length + P.length + 0 + 10 - 2 - 2 -
          H.length - 2 - N.length - 2 - P.length - 2) 0)
        (4 + H.length + 2 + N.length + 2 + P.length + 2) D
      = some (((((((((if le then le16 1 else be16 1) ++ be16 H.length) ++ H) ++
            be16 N.length) ++ N) ++ be16 P.length) ++ P) ++ be16 0)) := by
    rw [show H.length + N.length + P.length + 0 + 10 - 2 - 2 - H.length - 2 -
        N.length - 2 - P.length - 2 = 0 from by omega]
    rw [List.replicate_zero, List.append_nil]
    have h := copyCkd_self_end ((((((((if le then le16 1 else be16 1) ++
        be16 H.length) ++ H) ++ be16 N.length) ++ N) ++ be16 P.length) ++ P) ++ be16 0) D
    rwa [hW8] at h
  simp only [prepareXAuthorityBytes]
  rw [hD0, e0, e1, e2, eS, hp4, hp5, hp6, hp7, hp8, hp9]
  rw [s1]
  simp only [Option.some_bind]
  rw [s2]
  simp only [Option.some_bind]
  rw [s3]
  simp only [Option.some_bind]
  rw [s4]
  simp only [Option.some_bind]
  rw [s5]
  simp only [Option.some_bind]
  rw [s6]
  simp only [Option.some_bind]
  rw [s7]
  simp only [Option.some_bind]
  rw [s8]
  simp only [Option.some_bind]
  rw [s9]

/-- A string of `2 n` ASCII `0` digits hex-decodes to `n` zero bytes. -/
theorem hexDecode_replicate48 (n : Nat) :
    hexDecode (List.replicate (2 * n) 48) = some (List.replicate n 0) := by
  induction n with
  | zero => rfl
  | succ m ih =>
    rw [show 2 * (m + 1) = 2 * m + 1 + 1 from by omega,
        List.replicate_succ, List.replicate_succ]
    simp [hexDecode, hexDigitVal, ih, List.replicate_succ]

/-- A successful construction lifts through `prepareXAuthority`. -/
theorem prep_ok_of_bytes_some (le : Bool) (Hst P hx : List Nat) (n : Nat)
    (D buf : List Nat) (hhex : hexDecode hx = some D)
    (hb : prepareXAuthorityBytes le Hst (decStr n) P D = some buf) :
    prepareXAuthority le (some Hst) P hx n = .ok buf := by
  simp only [prepareXAuthority, hhex, hb]

/-- Claim C10: `prepareXAuthority` converts every field length to `uint16` and sizes
its buffer with `uint16` arithmetic.  On an input whose hex auth data decodes
to 65536 bytes exactly, the data length prefix wraps to 0 and the buffer is
sized without the data, so the function silently returns a truncated record —
its parsed data field is empty instead of the 65536 decoded bytes — rather
than returning an error.  (For inputs whose field lengths sum past 65525 the
same arithmetic instead panics on the first out-of-range write, as the
companion development around the 65526-byte-hostname input shows.) -/
theorem prepareXAuthority_uint16_truncation :
    hexDecode (List.replicate 131072 48) = some (List.replicate 65536 0) ∧
    prepareXAuthority false (some [104]) [] (List.replicate 131072 48) 0
      = .ok [0, 1, 0, 1, 104, 0, 1, 48, 0, 0, 0, 0] ∧
    parseAuthorityRecord [0, 1, 0, 1, 104, 0, 1, 48, 0, 0, 0, 0]
      = some ⟨[0, 1], [104], [48], [], []⟩ := by
  have hhex : hexDecode (List.replicate 131072 48) = some (List.replicate 65536 0) := by
    have h := hexDecode_replicate48 65536
    norm_num at h
    exact h
  have hD0 : u16 (List.replicate 65536 (0 : Nat)).length = 0 := by
    rw [List.length_replicate]
    decide
  have hbytes : prepareXAuthorityBytes false [104] (decStr 0) []
      (List.replicate 65536 0) = some [0, 1, 0, 1, 104, 0, 1, 48, 0, 0, 0, 0] := by
    rw [prepareXAuthorityBytes_data_wrap false [104] (decStr 0) []
        (List.replicate 65536 0) hD0 (by decide)]
    decide
  exact ⟨hhex,
    prep_ok_of_bytes_some false [104] [] (List.replicate 131072 48) 0
      (List.replicate 65536 0) [0, 1, 0, 1, 104, 0, 1, 48, 0, 0, 0, 0] hhex hbytes,
    by decide⟩

end X11
